import Mathlib

/-!
Shallow embedding of `src/python/dcc/maya/bindAndCopyWeight.py`.

The host application is modelled as a read-only oracle (`HostEnv`) that
answers every query command the script issues; the observable behaviour
of the script is the list of host commands it issues (`Cmd`) together
with an `Outcome` (normal return, early abort after an error/warning, or
an uncaught exception).  Host queries issued after scene mutations are
answered by the same oracle; every claim settled here only concerns
which values flow into which commands, so this is faithful.
-/

namespace BindAndCopyWeight

/-- Dynamic Python value as it flows through `getSkinCluster` and the UV
variables: `None`, a string, or a list of strings. -/
inductive PyVal where
  | none
  | str (s : String)
  | list (xs : List String)
  deriving DecidableEq

/-- Python truthiness (`if not x`) of such a value. -/
def pyFalsy : PyVal → Bool
  | PyVal.none => true
  | PyVal.str s => s == ""
  | PyVal.list xs => xs.isEmpty

/-- Python iteration (`for o in name`): a list yields its elements, a
string yields its characters as one-character strings. -/
def pyIter : PyVal → List String
  | PyVal.none => []
  | PyVal.str s => s.data.map (fun c => String.mk [c])
  | PyVal.list xs => xs

/-- A host (`maya.cmds`) command issued by the script, with the payload
the script passes to it. -/
inductive Cmd where
  | lsSelection
  | queryNodeType (name : String)
  | queryListRelatives (name : String)
  | queryListConnections (name : String)
  | querySkinClusterInfluence (sc : PyVal)
  | queryPolyUVSet (name : PyVal)
  | error (message : String)
  | warning (message : String)
  | unbind (obj : String)
  | bind (objects : List String) (dropoffRate : Rat) (removeUnusedInfluence : Bool)
      (maximumInfluences : Int) (bindMethod : Int) (toSelectedBones : Bool)
      (toSkeletonAndTransforms : Bool)
  | copySkinWeights (sourceSkin destinationSkin : PyVal) (noMirror : Bool)
      (surfaceAssociation : String) (uvSpace : List String)
      (influenceAssociation : List String)
  | select (objects : List String)
  deriving DecidableEq

/-- The host scene as seen through the query commands the script uses.
`lsSelection` is `cmds.ls(selection=True, long=True) or []`;
`listRelatives` is the shape query with `or []` folded in;
`listConnections` is the incoming skin-cluster connection query with
`or []` folded in; `skinClusterInfluence` is the influence query and
`polyUVSet` the UV-set query, each with `or []` folded in. -/
structure HostEnv where
  lsSelection : List String
  nodeType : String → String
  listRelatives : String → List String
  listConnections : String → List String
  skinClusterInfluence : PyVal → List String
  polyUVSet : PyVal → List String

/-- Lines 30-40 of `getSkinCluster`: walk the resolved shapes, keeping
the first non-empty `listConnections` result (the loop variable ends as
`[]` when every query came back empty). -/
def connLoop (env : HostEnv) : List String → List Cmd × List String
  | [] => ([], [])
  | o :: rest =>
    if env.listConnections o = [] then
      (Cmd.queryListConnections o :: (connLoop env rest).1, (connLoop env rest).2)
    else ([Cmd.queryListConnections o], env.listConnections o)

/-- Lines 20-25 (and identically lines 92-97): replace a transform name
by its shape list, leave any other name alone. -/
def resolveShapes (env : HostEnv) (name : String) : List Cmd × PyVal :=
  if env.nodeType name = "transform" then
    ([Cmd.queryNodeType name, Cmd.queryListRelatives name],
      PyVal.list (env.listRelatives name))
  else ([Cmd.queryNodeType name], PyVal.str name)

/-- `getSkinCluster` (lines 8-47).  Returns the trace of host queries it
issues together with its Python return value: `[]` when the name is
falsy after shape resolution, `None` when no connection was found, and
otherwise the first element of the connection list. -/
def getSkinCluster (env : HostEnv) (name : String) : List Cmd × PyVal :=
  if pyFalsy (resolveShapes env name).2 then ((resolveShapes env name).1, PyVal.list [])
  else
    ((resolveShapes env name).1 ++
        (connLoop env (pyIter (resolveShapes env name).2)).1,
      match (connLoop env (pyIter (resolveShapes env name).2)).2 with
      | [] => PyVal.none
      | r :: _ => PyVal.str r)

/-- `getInfluence` (lines 50-75): empty list for an empty name or a
falsy `getSkinCluster` result, otherwise the influence query answer. -/
def getInfluence (env : HostEnv) (name : String) : List Cmd × List String :=
  if name = "" then ([], [])
  else
    let sc := getSkinCluster env name
    if pyFalsy sc.2 then (sc.1, [])
    else (sc.1 ++ [Cmd.querySkinClusterInfluence sc.2], env.skinClusterInfluence sc.2)

/-- `getUVSet` (lines 78-105): empty list for an empty name, otherwise
the `polyUVSet` query on the shape-resolved name. -/
def getUVSet (env : HostEnv) (name : String) : List Cmd × List String :=
  if name = "" then ([], [])
  else
    ((resolveShapes env name).1 ++ [Cmd.queryPolyUVSet (resolveShapes env name).2],
      env.polyUVSet (resolveShapes env name).2)

/-- Message of `cmds.error` at line 131. -/
def selectionErrorMessage : String :=
  "Select two objects. The reference and target meshes."

/-- Message built at lines 165-166. -/
def sourceMessage : String :=
  "UV is not set on the source mesh.\nThe copy process has been cancelled."

/-- Message built at lines 179-180. -/
def destinationMessage : String :=
  "UV is not set on the destination mesh.\nThe copy process has been cancelled."

/-- How one call of `main` ends: normal fall-through, an early `return`
after `cmds.error`/`cmds.warning`, or an uncaught Python exception. -/
inductive Outcome where
  | ok
  | aborted
  | crashed
  deriving DecidableEq

/-- The observable result of one call of `main`. -/
structure MainResult where
  trace : List Cmd
  outcome : Outcome
  deriving DecidableEq

/-- The dynamic type of the `sourceUVSet` / `destinationUVSet` locals in
`main`: the queried list, later possibly replaced by a user string. -/
inductive StrOrList where
  | str (s : String)
  | list (xs : List String)
  deriving DecidableEq

/-- Lines 193-202: the `copySkinWeights` call with its literal keyword
arguments, followed by the selection restore. -/
def copyFinish (selection : List String) (sourceSkin destinationSkin : PyVal)
    (sourceUVSetR destinationUVSetR : String) : List Cmd × Outcome :=
  ([Cmd.copySkinWeights sourceSkin destinationSkin true "closestPoint"
      [sourceUVSetR, destinationUVSetR] ["label", "oneToOne", "closestJoint"],
    Cmd.select selection], Outcome.ok)

/-- Lines 187-202.  Line 187 re-tests the (already reduced, string)
`sourceUVSet` local instead of `destinationUVSet`; line 190-191 then
indexes `destinationUVSet[0]`, which raises `IndexError` when the
destination UV-set list is empty. -/
def destFinish (selection : List String) (sourceSkin destinationSkin : PyVal)
    (sourceUVSetR : String) (destinationUVSet : StrOrList) : List Cmd × Outcome :=
  if sourceUVSetR = "" then ([Cmd.warning destinationMessage], Outcome.aborted)
  else
    match destinationUVSet with
    | StrOrList.str s => copyFinish selection sourceSkin destinationSkin sourceUVSetR s
    | StrOrList.list [] => ([], Outcome.crashed)
    | StrOrList.list (x :: _) => copyFinish selection sourceSkin destinationSkin sourceUVSetR x

/-- Lines 181-185: destination UV-set membership test for a truthy user
string, warning and early return when it is not a member. -/
def destStage (selection : List String) (sourceSkin destinationSkin : PyVal)
    (sourceUVSetR : String) (destinationUVSets : List String)
    (userDestinationUVSet : String) : List Cmd × Outcome :=
  if userDestinationUVSet ≠ "" ∧ userDestinationUVSet ∈ destinationUVSets then
    destFinish selection sourceSkin destinationSkin sourceUVSetR
      (StrOrList.str userDestinationUVSet)
  else if userDestinationUVSet ≠ "" then
    ([Cmd.warning destinationMessage], Outcome.aborted)
  else
    destFinish selection sourceSkin destinationSkin sourceUVSetR
      (StrOrList.list destinationUVSets)

/-- Lines 173-177: `if not sourceUVSet` warning plus the
`sourceUVSet[0]` reduction of a list value, then fall through to the
destination stage. -/
def srcCheck (selection : List String) (sourceSkin destinationSkin : PyVal)
    (sourceUVSet : StrOrList) (destinationUVSets : List String)
    (userDestinationUVSet : String) : List Cmd × Outcome :=
  match sourceUVSet with
  | StrOrList.str s =>
    if s = "" then ([Cmd.warning sourceMessage], Outcome.aborted)
    else destStage selection sourceSkin destinationSkin s destinationUVSets
      userDestinationUVSet
  | StrOrList.list [] => ([Cmd.warning sourceMessage], Outcome.aborted)
  | StrOrList.list (x :: _) =>
    destStage selection sourceSkin destinationSkin x destinationUVSets
      userDestinationUVSet

/-- Lines 167-171: source UV-set membership test for a truthy user
string, warning and early return when it is not a member. -/
def srcStage (selection : List String) (sourceSkin destinationSkin : PyVal)
    (sourceUVSets destinationUVSets : List String)
    (userSourceUVSet userDestinationUVSet : String) : List Cmd × Outcome :=
  if userSourceUVSet ≠ "" ∧ userSourceUVSet ∈ sourceUVSets then
    srcCheck selection sourceSkin destinationSkin (StrOrList.str userSourceUVSet)
      destinationUVSets userDestinationUVSet
  else if userSourceUVSet ≠ "" then
    ([Cmd.warning sourceMessage], Outcome.aborted)
  else
    srcCheck selection sourceSkin destinationSkin (StrOrList.list sourceUVSets)
      destinationUVSets userDestinationUVSet

/-- Lines 129-163 after the selection check: the commands `main` issues
before the UV resolution code runs (queries, the conditional unbind of
the destination, the bind with the literal keyword arguments of lines
149-157, and the post-bind queries). -/
def preTrace (env : HostEnv) (dropoffRate : Rat) (maximumInfluences : Int) : List Cmd :=
  Cmd.lsSelection ::
    ((getInfluence env (env.lsSelection.getD 0 "")).1 ++
      (getInfluence env (env.lsSelection.getD 1 "")).1 ++
      (if (getInfluence env (env.lsSelection.getD 1 "")).2 = [] then []
        else [Cmd.unbind (env.lsSelection.getD 1 "")]) ++
      [Cmd.bind ((env.lsSelection.getD 1 "") ::
          (getInfluence env (env.lsSelection.getD 0 "")).2)
        dropoffRate false maximumInfluences 0 true false] ++
      (getSkinCluster env (env.lsSelection.getD 0 "")).1 ++
      (getSkinCluster env (env.lsSelection.getD 1 "")).1 ++
      (getUVSet env (env.lsSelection.getD 0 "")).1 ++
      (getUVSet env (env.lsSelection.getD 1 "")).1)

/-- Lines 165-202: the UV resolution and copy stage of `main`, fed the
results of the queries of lines 159-163. -/
def mainTail (env : HostEnv) (userSourceUVSet userDestinationUVSet : String) :
    List Cmd × Outcome :=
  srcStage env.lsSelection
    (getSkinCluster env (env.lsSelection.getD 0 "")).2
    (getSkinCluster env (env.lsSelection.getD 1 "")).2
    (getUVSet env (env.lsSelection.getD 0 "")).2
    (getUVSet env (env.lsSelection.getD 1 "")).2
    userSourceUVSet userDestinationUVSet

/-- `main` (lines 108-202). -/
def main (env : HostEnv) (dropoffRate : Rat) (maximumInfluences : Int)
    (userSourceUVSet userDestinationUVSet : String) : MainResult :=
  if env.lsSelection.length < 2 then
    { trace := [Cmd.lsSelection, Cmd.error selectionErrorMessage]
      outcome := Outcome.aborted }
  else
    { trace := preTrace env dropoffRate maximumInfluences ++
        (mainTail env userSourceUVSet userDestinationUVSet).1
      outcome := (mainTail env userSourceUVSet userDestinationUVSet).2 }

/-- A pure scene query. -/
def isQuery : Cmd → Bool
  | Cmd.lsSelection => true
  | Cmd.queryNodeType _ => true
  | Cmd.queryListRelatives _ => true
  | Cmd.queryListConnections _ => true
  | Cmd.querySkinClusterInfluence _ => true
  | Cmd.queryPolyUVSet _ => true
  | _ => false

/-- A message to the host's error or warning channel. -/
def isMessage : Cmd → Bool
  | Cmd.error _ => true
  | Cmd.warning _ => true
  | _ => false

/-- A command that mutates host scene state. -/
def isSceneMutation : Cmd → Bool
  | Cmd.unbind _ => true
  | Cmd.bind _ _ _ _ _ _ _ => true
  | Cmd.copySkinWeights _ _ _ _ _ _ => true
  | Cmd.select _ => true
  | _ => false

def isError : Cmd → Bool
  | Cmd.error _ => true
  | _ => false

def isWarning : Cmd → Bool
  | Cmd.warning _ => true
  | _ => false

def isUnbind : Cmd → Bool
  | Cmd.unbind _ => true
  | _ => false

def isBind : Cmd → Bool
  | Cmd.bind _ _ _ _ _ _ _ => true
  | _ => false

def isCopy : Cmd → Bool
  | Cmd.copySkinWeights _ _ _ _ _ _ => true
  | _ => false

def isSelect : Cmd → Bool
  | Cmd.select _ => true
  | _ => false

/-- Effect of one host command on the host's selection list: only
`select` (replace mode, line 202) changes it. -/
def applySelect (sel : List String) : Cmd → List String
  | Cmd.select objects => objects
  | _ => sel

/-- The host selection after a trace of commands runs from `sel`. -/
def selectionAfter (sel : List String) (t : List Cmd) : List String :=
  t.foldl applySelect sel

/-- A scene with two plain (non-transform) meshes selected, no skin
clusters anywhere and one UV set per mesh. -/
def plainEnv : HostEnv :=
  { lsSelection := ["srcMesh", "dstMesh"]
    nodeType := fun _ => "mesh"
    listRelatives := fun _ => []
    listConnections := fun _ => []
    skinClusterInfluence := fun _ => []
    polyUVSet := fun _ => ["map1"] }

/-- Same scene with three objects selected. -/
def threeEnv : HostEnv :=
  { plainEnv with lsSelection := ["a", "b", "c"] }

/-- Same scene with one object selected. -/
def oneEnv : HostEnv :=
  { plainEnv with lsSelection := ["a"] }

/-- Two meshes selected; the source has a UV set, the destination mesh
has none. -/
def noDestUVEnv : HostEnv :=
  { plainEnv with polyUVSet := fun v =>
      match v with
      | PyVal.str "srcMesh" => ["map1"]
      | _ => [] }

/-- Two meshes selected, neither with any UV set. -/
def noUVEnv : HostEnv :=
  { plainEnv with polyUVSet := fun _ => [] }

/-- Two meshes selected, the destination already bound: its incoming
connection query yields a skin cluster whose influence list is
non-empty. -/
def boundDestEnv : HostEnv :=
  { plainEnv with
      nodeType := fun n => if n = "dstMesh" then "transform" else "mesh"
      listRelatives := fun n => if n = "dstMesh" then ["dstShape"] else []
      listConnections := fun n => if n = "dstShape" then ["skinCluster1"] else []
      skinClusterInfluence := fun _ => ["joint1"] }

/-- A transform whose shape has no incoming skin-cluster connection. -/
def bareShapeEnv : HostEnv :=
  { plainEnv with
      nodeType := fun n => if n = "grp" then "transform" else "mesh"
      listRelatives := fun n => if n = "grp" then ["grpShape"] else [] }

/-- A query command is none of the other command kinds. -/
theorem isQuery_classify (c : Cmd) (h : isQuery c = true) :
    isBind c = false ∧ isUnbind c = false ∧ isCopy c = false ∧ isSelect c = false ∧
      isError c = false ∧ isWarning c = false := by
  cases c <;> simp_all [isQuery, isBind, isUnbind, isCopy, isSelect, isError, isWarning]

/-- The connection loop issues only query commands. -/
theorem connLoop_queries (env : HostEnv) (xs : List String) :
    ∀ c ∈ (connLoop env xs).1, isQuery c = true := by
  induction xs with
  | nil => intro c hc; simp [connLoop] at hc
  | cons o rest ih =>
    intro c hc
    simp only [connLoop] at hc
    split at hc
    · rcases List.mem_cons.mp hc with hc | hc
      · subst hc; rfl
      · exact ih c hc
    · rcases List.mem_singleton.mp hc with rfl
      rfl

/-- Shape resolution issues only query commands. -/
theorem resolveShapes_queries (env : HostEnv) (n : String) :
    ∀ c ∈ (resolveShapes env n).1, isQuery c = true := by
  intro c hc
  simp only [resolveShapes] at hc
  split at hc <;> simp at hc
  · rcases hc with rfl | rfl <;> rfl
  · rcases hc with rfl; rfl

/-- `getSkinCluster` issues only query commands. -/
theorem getSkinCluster_queries (env : HostEnv) (n : String) :
    ∀ c ∈ (getSkinCluster env n).1, isQuery c = true := by
  intro c hc
  simp only [getSkinCluster] at hc
  split at hc
  · exact resolveShapes_queries env n c hc
  · rcases List.mem_append.mp hc with hc | hc
    · exact resolveShapes_queries env n c hc
    · exact connLoop_queries env _ c hc

/-- `getInfluence` issues only query commands. -/
theorem getInfluence_queries (env : HostEnv) (n : String) :
    ∀ c ∈ (getInfluence env n).1, isQuery c = true := by
  intro c hc
  simp only [getInfluence] at hc
  split at hc
  · cases hc
  · split at hc
    · exact getSkinCluster_queries env n c hc
    · rcases List.mem_append.mp hc with hc | hc
      · exact getSkinCluster_queries env n c hc
      · rcases List.mem_singleton.mp hc with rfl; rfl

/-- `getUVSet` issues only query commands. -/
theorem getUVSet_queries (env : HostEnv) (n : String) :
    ∀ c ∈ (getUVSet env n).1, isQuery c = true := by
  intro c hc
  simp only [getUVSet] at hc
  split at hc
  · cases hc
  · rcases List.mem_append.mp hc with hc | hc
    · exact resolveShapes_queries env n c hc
    · rcases List.mem_singleton.mp hc with rfl; rfl

/-- A trace of query commands contains none of `p` when `p` rejects
queries. -/
theorem countP_zero_of_queries (p : Cmd → Bool) (hp : ∀ c, isQuery c = true → p c = false)
    (t : List Cmd) (ht : ∀ c ∈ t, isQuery c = true) : t.countP p = 0 := by
  refine List.countP_eq_zero.mpr ?_
  intro c hc
  simp [hp c (ht c hc)]

/-- The copy call plus selection restore issues only the weight copy and
the select. -/
theorem copyFinish_cmds (sel : List String) (ss ds : PyVal) (s d : String) :
    ∀ c ∈ (copyFinish sel ss ds s d).1,
      isWarning c = true ∨ isCopy c = true ∨ isSelect c = true := by
  intro c hc
  simp only [copyFinish, List.mem_cons, List.mem_singleton, List.not_mem_nil,
    or_false] at hc
  rcases hc with rfl | rfl
  · right; left; rfl
  · right; right; rfl

/-- Lines 187-202 issue only warnings, the weight copy and the select. -/
theorem destFinish_cmds (sel : List String) (ss ds : PyVal) (sR : String)
    (duv : StrOrList) :
    ∀ c ∈ (destFinish sel ss ds sR duv).1,
      isWarning c = true ∨ isCopy c = true ∨ isSelect c = true := by
  intro c hc
  simp only [destFinish] at hc
  split at hc
  · rcases List.mem_singleton.mp hc with rfl; left; rfl
  · split at hc
    · exact copyFinish_cmds sel ss ds sR _ c hc
    · cases hc
    · exact copyFinish_cmds sel ss ds sR _ c hc

/-- Lines 181-202 issue only warnings, the weight copy and the select. -/
theorem destStage_cmds (sel : List String) (ss ds : PyVal) (sR : String)
    (dus : List String) (ud : String) :
    ∀ c ∈ (destStage sel ss ds sR dus ud).1,
      isWarning c = true ∨ isCopy c = true ∨ isSelect c = true := by
  intro c hc
  simp only [destStage] at hc
  split at hc
  · exact destFinish_cmds sel ss ds sR _ c hc
  · split at hc
    · rcases List.mem_singleton.mp hc with rfl; left; rfl
    · exact destFinish_cmds sel ss ds sR _ c hc

/-- Lines 173-202 issue only warnings, the weight copy and the select. -/
theorem srcCheck_cmds (sel : List String) (ss ds : PyVal) (suv : StrOrList)
    (dus : List String) (ud : String) :
    ∀ c ∈ (srcCheck sel ss ds suv dus ud).1,
      isWarning c = true ∨ isCopy c = true ∨ isSelect c = true := by
  intro c hc
  simp only [srcCheck] at hc
  split at hc
  · split at hc
    · rcases List.mem_singleton.mp hc with rfl; left; rfl
    · exact destStage_cmds sel ss ds _ dus ud c hc
  · rcases List.mem_singleton.mp hc with rfl; left; rfl
  · exact destStage_cmds sel ss ds _ dus ud c hc

/-- Lines 165-202 issue only warnings, the weight copy and the select. -/
theorem srcStage_cmds (sel : List String) (ss ds : PyVal)
    (sus dus : List String) (us ud : String) :
    ∀ c ∈ (srcStage sel ss ds sus dus us ud).1,
      isWarning c = true ∨ isCopy c = true ∨ isSelect c = true := by
  intro c hc
  simp only [srcStage] at hc
  split at hc
  · exact srcCheck_cmds sel ss ds _ dus ud c hc
  · split at hc
    · rcases List.mem_singleton.mp hc with rfl; left; rfl
    · exact srcCheck_cmds sel ss ds _ dus ud c hc

/-- A trace without select commands leaves the host selection alone. -/
theorem selectionAfter_no_select (t : List Cmd) (ht : ∀ c ∈ t, isSelect c = false) :
    ∀ s, selectionAfter s t = s := by
  induction t with
  | nil => intro s; rfl
  | cons c rest ih =>
    intro s
    have hc : isSelect c = false := ht c (List.mem_cons_self c rest)
    have hrest : ∀ c ∈ rest, isSelect c = false :=
      fun c h => ht c (List.mem_cons_of_mem _ h)
    have happ : applySelect s c = s := by
      cases c <;> simp_all [isSelect, applySelect]
    simp [selectionAfter, List.foldl_cons, happ]
    exact ih hrest s

/-- Frame/outcome behaviour of the copy stage: a run that ends normally
issued the weight copy exactly once and restored the selection to the
entry selection; a run that returned early or crashed issued no copy and
no select. -/
theorem destFinish_frame (sel : List String) (ss ds : PyVal) (sR : String)
    (duv : StrOrList) (init : List String) :
    ((destFinish sel ss ds sR duv).2 = Outcome.ok →
      selectionAfter init (destFinish sel ss ds sR duv).1 = sel ∧
        (destFinish sel ss ds sR duv).1.countP isCopy = 1) ∧
    ((destFinish sel ss ds sR duv).2 ≠ Outcome.ok →
      selectionAfter init (destFinish sel ss ds sR duv).1 = init ∧
        (destFinish sel ss ds sR duv).1.countP isCopy = 0) := by
  simp only [destFinish]
  split
  · exact ⟨fun h => Outcome.noConfusion h, fun _ => ⟨rfl, rfl⟩⟩
  · split
    · exact ⟨fun _ => ⟨rfl, rfl⟩, fun h => absurd rfl h⟩
    · exact ⟨fun h => Outcome.noConfusion h, fun _ => ⟨rfl, rfl⟩⟩
    · exact ⟨fun _ => ⟨rfl, rfl⟩, fun h => absurd rfl h⟩

theorem destStage_frame (sel : List String) (ss ds : PyVal) (sR : String)
    (dus : List String) (ud : String) (init : List String) :
    ((destStage sel ss ds sR dus ud).2 = Outcome.ok →
      selectionAfter init (destStage sel ss ds sR dus ud).1 = sel ∧
        (destStage sel ss ds sR dus ud).1.countP isCopy = 1) ∧
    ((destStage sel ss ds sR dus ud).2 ≠ Outcome.ok →
      selectionAfter init (destStage sel ss ds sR dus ud).1 = init ∧
        (destStage sel ss ds sR dus ud).1.countP isCopy = 0) := by
  simp only [destStage]
  split
  · exact destFinish_frame sel ss ds sR _ init
  · split
    · exact ⟨fun h => Outcome.noConfusion h, fun _ => ⟨rfl, rfl⟩⟩
    · exact destFinish_frame sel ss ds sR _ init

theorem srcCheck_frame (sel : List String) (ss ds : PyVal) (suv : StrOrList)
    (dus : List String) (ud : String) (init : List String) :
    ((srcCheck sel ss ds suv dus ud).2 = Outcome.ok →
      selectionAfter init (srcCheck sel ss ds suv dus ud).1 = sel ∧
        (srcCheck sel ss ds suv dus ud).1.countP isCopy = 1) ∧
    ((srcCheck sel ss ds suv dus ud).2 ≠ Outcome.ok →
      selectionAfter init (srcCheck sel ss ds suv dus ud).1 = init ∧
        (srcCheck sel ss ds suv dus ud).1.countP isCopy = 0) := by
  simp only [srcCheck]
  split
  · split
    · exact ⟨fun h => Outcome.noConfusion h, fun _ => ⟨rfl, rfl⟩⟩
    · exact destStage_frame sel ss ds _ dus ud init
  · exact ⟨fun h => Outcome.noConfusion h, fun _ => ⟨rfl, rfl⟩⟩
  · exact destStage_frame sel ss ds _ dus ud init

theorem srcStage_frame (sel : List String) (ss ds : PyVal)
    (sus dus : List String) (us ud : String) (init : List String) :
    ((srcStage sel ss ds sus dus us ud).2 = Outcome.ok →
      selectionAfter init (srcStage sel ss ds sus dus us ud).1 = sel ∧
        (srcStage sel ss ds sus dus us ud).1.countP isCopy = 1) ∧
    ((srcStage sel ss ds sus dus us ud).2 ≠ Outcome.ok →
      selectionAfter init (srcStage sel ss ds sus dus us ud).1 = init ∧
        (srcStage sel ss ds sus dus us ud).1.countP isCopy = 0) := by
  simp only [srcStage]
  split
  · exact srcCheck_frame sel ss ds _ dus ud init
  · split
    · exact ⟨fun h => Outcome.noConfusion h, fun _ => ⟨rfl, rfl⟩⟩
    · exact srcCheck_frame sel ss ds _ dus ud init

/-- `selectionAfter` splits over an appended trace. -/
theorem selectionAfter_append (s : List String) (a b : List Cmd) :
    selectionAfter s (a ++ b) = selectionAfter (selectionAfter s a) b := by
  simp [selectionAfter, List.foldl_append]

/-- Every command issued before the UV resolution stage is a query, the
conditional unbind, or the bind. -/
theorem mem_preTrace (env : HostEnv) (dr : Rat) (mi : Int) (c : Cmd)
    (hc : c ∈ preTrace env dr mi) :
    isQuery c = true ∨ c = Cmd.unbind (env.lsSelection.getD 1 "") ∨
      c = Cmd.bind ((env.lsSelection.getD 1 "") ::
          (getInfluence env (env.lsSelection.getD 0 "")).2) dr false mi 0 true false := by
  simp only [preTrace, List.mem_cons, List.mem_append] at hc
  rcases hc with rfl | hc
  · left; rfl
  · rcases hc with ((((((h | h) | h) | h) | h) | h) | h) | h
    · exact Or.inl (getInfluence_queries env _ c h)
    · exact Or.inl (getInfluence_queries env _ c h)
    · split at h
      · cases h
      · rcases List.mem_singleton.mp h with rfl
        exact Or.inr (Or.inl rfl)
    · rcases h with rfl | h
      · exact Or.inr (Or.inr rfl)
      · cases h
    · exact Or.inl (getSkinCluster_queries env _ c h)
    · exact Or.inl (getSkinCluster_queries env _ c h)
    · exact Or.inl (getUVSet_queries env _ c h)
    · exact Or.inl (getUVSet_queries env _ c h)

/-- Counting non-query commands in the pre-copy trace reduces to the
unbind and bind entries. -/
theorem preTrace_countP (env : HostEnv) (dr : Rat) (mi : Int) (p : Cmd → Bool)
    (hp : ∀ c, isQuery c = true → p c = false) :
    (preTrace env dr mi).countP p =
      ((if (getInfluence env (env.lsSelection.getD 1 "")).2 = [] then ([] : List Cmd)
        else [Cmd.unbind (env.lsSelection.getD 1 "")]).countP p) +
      ([Cmd.bind ((env.lsSelection.getD 1 "") ::
          (getInfluence env (env.lsSelection.getD 0 "")).2)
        dr false mi 0 true false].countP p) := by
  have h0 := countP_zero_of_queries p hp
  simp only [preTrace, List.countP_cons, List.countP_append]
  rw [h0 _ (getInfluence_queries env _), h0 _ (getInfluence_queries env _),
    h0 _ (getSkinCluster_queries env _), h0 _ (getSkinCluster_queries env _),
    h0 _ (getUVSet_queries env _), h0 _ (getUVSet_queries env _),
    hp Cmd.lsSelection rfl]
  simp

/-- The pre-copy trace contains the bind exactly once. -/
theorem preTrace_isBind (env : HostEnv) (dr : Rat) (mi : Int) :
    (preTrace env dr mi).countP isBind = 1 := by
  rw [preTrace_countP env dr mi isBind (fun c h => (isQuery_classify c h).1)]
  split <;> simp [List.countP_cons, isBind, isUnbind]

/-- The pre-copy trace contains no weight copy. -/
theorem preTrace_isCopy (env : HostEnv) (dr : Rat) (mi : Int) :
    (preTrace env dr mi).countP isCopy = 0 := by
  rw [preTrace_countP env dr mi isCopy (fun c h => (isQuery_classify c h).2.2.1)]
  split <;> simp [List.countP_cons, isCopy]

/-- The pre-copy trace contains no select. -/
theorem preTrace_no_select (env : HostEnv) (dr : Rat) (mi : Int) :
    ∀ c ∈ preTrace env dr mi, isSelect c = false := by
  intro c hc
  rcases mem_preTrace env dr mi c hc with h | rfl | rfl
  · exact (isQuery_classify c h).2.2.2.1
  · rfl
  · rfl

/-- The pre-copy trace contains the unbind exactly when the destination
influence list is non-empty. -/
theorem preTrace_isUnbind (env : HostEnv) (dr : Rat) (mi : Int) :
    (preTrace env dr mi).countP isUnbind =
      (if (getInfluence env (env.lsSelection.getD 1 "")).2 = [] then 0 else 1) := by
  rw [preTrace_countP env dr mi isUnbind (fun c h => (isQuery_classify c h).2.1)]
  split <;> simp [List.countP_cons, isUnbind]

/-- Copy-stage commands are never the bind, unbind or error. -/
theorem tail_classify (c : Cmd)
    (h : isWarning c = true ∨ isCopy c = true ∨ isSelect c = true) :
    isBind c = false ∧ isUnbind c = false ∧ isError c = false := by
  cases c <;> simp_all [isWarning, isCopy, isSelect, isBind, isUnbind, isError]

/-- The copy stage never issues a bind. -/
theorem mainTail_isBind (env : HostEnv) (us ud : String) :
    (mainTail env us ud).1.countP isBind = 0 :=
  List.countP_eq_zero.mpr fun c hc => by
    simp [(tail_classify c (srcStage_cmds _ _ _ _ _ _ _ c hc)).1]

/-- The copy stage never issues an unbind. -/
theorem mainTail_isUnbind (env : HostEnv) (us ud : String) :
    (mainTail env us ud).1.countP isUnbind = 0 :=
  List.countP_eq_zero.mpr fun c hc => by
    simp [(tail_classify c (srcStage_cmds _ _ _ _ _ _ _ c hc)).2.1]

/-- When every shape has no incoming skin-cluster connection the loop
result is empty. -/
theorem connLoop_all_empty (env : HostEnv) (xs : List String)
    (h : ∀ o ∈ xs, env.listConnections o = []) : (connLoop env xs).2 = [] := by
  induction xs with
  | nil => rfl
  | cons o rest ih =>
    simp only [connLoop]
    rw [if_pos (h o (List.mem_cons_self o rest))]
    exact ih fun o ho => h o (List.mem_cons_of_mem _ ho)

/-- A truthy source UV set that is not a member aborts with the source
warning (lines 169-171). -/
theorem srcStage_src_bad (sel : List String) (ss ds : PyVal)
    (sus dus : List String) (us ud : String) (h : us ≠ "" ∧ us ∉ sus) :
    srcStage sel ss ds sus dus us ud =
      ([Cmd.warning sourceMessage], Outcome.aborted) := by
  simp only [srcStage]
  rw [if_neg (fun hc => h.2 hc.2), if_pos h.1]

/-- A truthy destination UV set that is not a member aborts with the
destination warning (lines 183-185). -/
theorem destStage_dst_bad (sel : List String) (ss ds : PyVal) (sR : String)
    (dus : List String) (ud : String) (h : ud ≠ "" ∧ ud ∉ dus) :
    destStage sel ss ds sR dus ud =
      ([Cmd.warning destinationMessage], Outcome.aborted) := by
  simp only [destStage]
  rw [if_neg (fun hc => h.2 hc.2), if_pos h.1]

/-- With a bad destination membership the whole copy stage warns, issues
no copy and aborts, whatever the source situation is. -/
theorem srcStage_dst_bad (sel : List String) (ss ds : PyVal)
    (sus dus : List String) (us ud : String) (h : ud ≠ "" ∧ ud ∉ dus) :
    1 ≤ (srcStage sel ss ds sus dus us ud).1.countP isWarning ∧
      (srcStage sel ss ds sus dus us ud).1.countP isCopy = 0 ∧
      (srcStage sel ss ds sus dus us ud).2 = Outcome.aborted := by
  simp only [srcStage]
  split
  · simp only [srcCheck]
    split
    · exact ⟨Nat.le_refl 1, rfl, rfl⟩
    · rw [destStage_dst_bad sel ss ds _ dus ud h]
      exact ⟨Nat.le_refl 1, rfl, rfl⟩
  · split
    · exact ⟨Nat.le_refl 1, rfl, rfl⟩
    · cases sus with
      | nil => exact ⟨Nat.le_refl 1, rfl, rfl⟩
      | cons x rest =>
        simp only [srcCheck]
        rw [destStage_dst_bad sel ss ds _ dus ud h]
        exact ⟨Nat.le_refl 1, rfl, rfl⟩

/-- Successful destination resolution: the user value when truthy (and a
member), the first queried UV set otherwise. -/
theorem destStage_resolved (sel : List String) (ss ds : PyVal) (sR : String)
    (dus : List String) (ud : String) (hsR : sR ≠ "")
    (h4 : ud ≠ "" → ud ∈ dus) (h5 : ud = "" → dus ≠ []) :
    destStage sel ss ds sR dus ud =
      copyFinish sel ss ds sR (if ud = "" then dus.headD "" else ud) := by
  by_cases hud : ud = ""
  · subst hud
    have hc1 : ¬((("" : String) ≠ "") ∧ "" ∈ dus) := fun hc => hc.1 rfl
    have hc2 : ¬(("" : String) ≠ "") := fun hc => hc rfl
    simp only [destStage]
    rw [if_neg hc1, if_neg hc2]
    have hne := h5 rfl
    cases dus with
    | nil => exact absurd rfl hne
    | cons x rest =>
      simp only [destFinish]
      rw [if_neg hsR]
      simp [List.headD]
  · have hmem := h4 hud
    simp only [destStage]
    rw [if_pos ⟨hud, hmem⟩]
    simp only [destFinish]
    rw [if_neg hsR]
    simp [hud]

/-- Successful source and destination resolution: the copy stage issues
exactly the weight copy with the resolved UV pair and the restore. -/
theorem srcStage_resolved (sel : List String) (ss ds : PyVal)
    (sus dus : List String) (us ud : String)
    (h2 : us ≠ "" → us ∈ sus) (h3 : us = "" → sus ≠ [] ∧ "" ∉ sus)
    (h4 : ud ≠ "" → ud ∈ dus) (h5 : ud = "" → dus ≠ []) :
    srcStage sel ss ds sus dus us ud =
      copyFinish sel ss ds (if us = "" then sus.headD "" else us)
        (if ud = "" then dus.headD "" else ud) := by
  by_cases hus : us = ""
  · subst hus
    obtain ⟨hne, hnm⟩ := h3 rfl
    have hc1 : ¬((("" : String) ≠ "") ∧ "" ∈ sus) := fun hc => hc.1 rfl
    have hc2 : ¬(("" : String) ≠ "") := fun hc => hc rfl
    simp only [srcStage]
    rw [if_neg hc1, if_neg hc2]
    cases sus with
    | nil => exact absurd rfl hne
    | cons x rest =>
      have hx : x ≠ "" := fun hx0 => hnm (hx0 ▸ List.mem_cons_self x rest)
      simp only [srcCheck]
      rw [destStage_resolved sel ss ds x dus ud hx h4 h5]
      simp [List.headD]
  · have hmem := h2 hus
    simp only [srcStage]
    rw [if_pos ⟨hus, hmem⟩]
    simp only [srcCheck]
    rw [if_neg hus]
    rw [destStage_resolved sel ss ds us dus ud hus h4 h5]
    simp [hus]

/-- Claim C1 counterexample: with three objects selected — a selection
whose length is not exactly two — `main` issues no error at all and
proceeds to issue the bind, so the claimed error-and-abort behaviour for
every selection of length other than two fails. -/
theorem selection_guard_cex :
    threeEnv.lsSelection.length = 3 ∧
      (main threeEnv 4 5 "" "").trace.countP isError = 0 ∧
      (main threeEnv 4 5 "" "").trace.countP isBind = 1 := by
  decide

/-- Claim C1 (amended): for every host selection with fewer than two
objects, `main` reports an error via the host's error channel and aborts
before performing any unbind, bind or weight-copy command. -/
theorem selection_guard_lt_two (env : HostEnv) (dr : Rat) (mi : Int) (us ud : String)
    (h : env.lsSelection.length < 2) :
    Cmd.error selectionErrorMessage ∈ (main env dr mi us ud).trace ∧
      (main env dr mi us ud).trace.countP isUnbind = 0 ∧
      (main env dr mi us ud).trace.countP isBind = 0 ∧
      (main env dr mi us ud).trace.countP isCopy = 0 ∧
      (main env dr mi us ud).outcome = Outcome.aborted := by
  simp only [main, if_pos h]
  refine ⟨?_, ?_, ?_, ?_, ?_⟩ <;> first | rfl | simp

theorem selection_guard_lt_two_witness :
    oneEnv.lsSelection.length < 2 ∧
      (Cmd.error selectionErrorMessage ∈ (main oneEnv 4 5 "" "").trace ∧
        (main oneEnv 4 5 "" "").trace.countP isUnbind = 0 ∧
        (main oneEnv 4 5 "" "").trace.countP isBind = 0 ∧
        (main oneEnv 4 5 "" "").trace.countP isCopy = 0 ∧
        (main oneEnv 4 5 "" "").outcome = Outcome.aborted) :=
  ⟨by decide, selection_guard_lt_two oneEnv 4 5 "" "" (by decide)⟩

/-- Claim C2 (code bug): with two objects selected, no user destination
UV set, and a destination mesh whose UV-set query returns no UV sets,
`main` does not warn and abort as claimed: line 187 re-tests the source
UV variable instead of the destination one, so the run falls through to
`destinationUVSet[0]` and crashes with an uncaught IndexError, issuing
no warning and no weight copy. -/
theorem destination_uv_guard_crash :
    noDestUVEnv.lsSelection.length = 2 ∧
      (getUVSet noDestUVEnv "dstMesh").2 = [] ∧
      (main noDestUVEnv 4 5 "" "").outcome = Outcome.crashed ∧
      (main noDestUVEnv 4 5 "" "").trace.countP isWarning = 0 ∧
      (main noDestUVEnv 4 5 "" "").trace.countP isCopy = 0 := by
  decide

/-- Claim C3: for every run that passes the selection check, the bind
command is issued exactly once, and it receives exactly the influence
list returned by `getInfluence` on the first selected object together
with the destination object (inserted in front), and nothing else. -/
theorem bind_uses_source_influences (env : HostEnv) (dr : Rat) (mi : Int)
    (us ud : String) (h : 2 ≤ env.lsSelection.length) :
    (main env dr mi us ud).trace.countP isBind = 1 ∧
      ∀ c ∈ (main env dr mi us ud).trace, isBind c = true →
        c = Cmd.bind ((env.lsSelection.getD 1 "") ::
            (getInfluence env (env.lsSelection.getD 0 "")).2) dr false mi 0 true false := by
  have hlt : ¬ env.lsSelection.length < 2 := by omega
  simp only [main, if_neg hlt]
  constructor
  · rw [List.countP_append, preTrace_isBind, mainTail_isBind]
  · intro c hc hb
    rcases List.mem_append.mp hc with hc | hc
    · rcases mem_preTrace env dr mi c hc with hq | rfl | rfl
      · rw [(isQuery_classify c hq).1] at hb; cases hb
      · cases hb
      · rfl
    · rw [(tail_classify c (srcStage_cmds _ _ _ _ _ _ _ c hc)).1] at hb
      cases hb

theorem bind_uses_source_influences_witness :
    2 ≤ plainEnv.lsSelection.length ∧
      (main plainEnv 4 5 "" "").trace.countP isBind = 1 :=
  ⟨by decide, (bind_uses_source_influences plainEnv 4 5 "" "" (by decide)).1⟩

/-- Claim C4: as long as the selection check passes, the user UV sets
pass the membership checks when truthy, and a first (non-empty-named) UV
set exists where the user supplied none, the weight copy is issued
exactly once, with the source and destination skin clusters of the two
selected objects and the UV pair resolved to the user set when supplied
and otherwise to the first UV set of the respective mesh. -/
theorem copy_invocation_exact (env : HostEnv) (dr : Rat) (mi : Int) (us ud : String)
    (h1 : 2 ≤ env.lsSelection.length)
    (h2 : us ≠ "" → us ∈ (getUVSet env (env.lsSelection.getD 0 "")).2)
    (h3 : us = "" → (getUVSet env (env.lsSelection.getD 0 "")).2 ≠ [] ∧
      "" ∉ (getUVSet env (env.lsSelection.getD 0 "")).2)
    (h4 : ud ≠ "" → ud ∈ (getUVSet env (env.lsSelection.getD 1 "")).2)
    (h5 : ud = "" → (getUVSet env (env.lsSelection.getD 1 "")).2 ≠ []) :
    (main env dr mi us ud).trace.countP isCopy = 1 ∧
      Cmd.copySkinWeights (getSkinCluster env (env.lsSelection.getD 0 "")).2
          (getSkinCluster env (env.lsSelection.getD 1 "")).2 true "closestPoint"
          [(if us = "" then (getUVSet env (env.lsSelection.getD 0 "")).2.headD "" else us),
            (if ud = "" then (getUVSet env (env.lsSelection.getD 1 "")).2.headD "" else ud)]
          ["label", "oneToOne", "closestJoint"] ∈ (main env dr mi us ud).trace := by
  have hlt : ¬ env.lsSelection.length < 2 := by omega
  have htail := srcStage_resolved env.lsSelection
    (getSkinCluster env (env.lsSelection.getD 0 "")).2
    (getSkinCluster env (env.lsSelection.getD 1 "")).2
    (getUVSet env (env.lsSelection.getD 0 "")).2
    (getUVSet env (env.lsSelection.getD 1 "")).2 us ud h2 h3 h4 h5
  simp only [main, if_neg hlt, mainTail, htail]
  constructor
  · rw [List.countP_append, preTrace_isCopy]
    rfl
  · exact List.mem_append.mpr (Or.inr (List.mem_cons_self _ _))

theorem copy_invocation_exact_witness :
    (main plainEnv 4 5 "" "").trace.countP isCopy = 1 :=
  (copy_invocation_exact plainEnv 4 5 "" "" (by decide) (fun h => absurd rfl h)
    (fun _ => by decide) (fun h => absurd rfl h) (fun _ => by decide)).1

/-- Claim C5: when the selection check passes, no user source UV set is
supplied and the source mesh's UV-set query returns no UV sets, `main`
warns with the source message and aborts before any weight copy. -/
theorem source_uv_guard (env : HostEnv) (dr : Rat) (mi : Int) (ud : String)
    (h1 : 2 ≤ env.lsSelection.length)
    (h2 : (getUVSet env (env.lsSelection.getD 0 "")).2 = []) :
    Cmd.warning sourceMessage ∈ (main env dr mi "" ud).trace ∧
      (main env dr mi "" ud).trace.countP isCopy = 0 ∧
      (main env dr mi "" ud).outcome = Outcome.aborted := by
  have hlt : ¬ env.lsSelection.length < 2 := by omega
  have htail : mainTail env "" ud = ([Cmd.warning sourceMessage], Outcome.aborted) := by
    simp only [mainTail, h2]
    simp [srcStage, srcCheck]
  simp only [main, if_neg hlt, htail]
  refine ⟨List.mem_append.mpr (Or.inr (List.mem_singleton.mpr rfl)), ?_, ?_⟩
  · rw [List.countP_append, preTrace_isCopy]
    rfl
  · trivial

theorem source_uv_guard_witness :
    Cmd.warning sourceMessage ∈ (main noUVEnv 4 5 "" "").trace ∧
      (main noUVEnv 4 5 "" "").trace.countP isCopy = 0 ∧
      (main noUVEnv 4 5 "" "").outcome = Outcome.aborted :=
  source_uv_guard noUVEnv 4 5 "" (by decide) (by decide)

/-- Claim C6: when the selection check passes and a truthy user source
or destination UV set fails the membership check against the respective
mesh's UV sets, `main` reports a warning and returns without invoking
the weight copy. -/
theorem uv_membership_guard (env : HostEnv) (dr : Rat) (mi : Int) (us ud : String)
    (h1 : 2 ≤ env.lsSelection.length)
    (h2 : (us ≠ "" ∧ us ∉ (getUVSet env (env.lsSelection.getD 0 "")).2) ∨
      (ud ≠ "" ∧ ud ∉ (getUVSet env (env.lsSelection.getD 1 "")).2)) :
    1 ≤ (main env dr mi us ud).trace.countP isWarning ∧
      (main env dr mi us ud).trace.countP isCopy = 0 ∧
      (main env dr mi us ud).outcome = Outcome.aborted := by
  have hlt : ¬ env.lsSelection.length < 2 := by omega
  simp only [main, if_neg hlt]
  rcases h2 with h2 | h2
  · have htail := srcStage_src_bad env.lsSelection
      (getSkinCluster env (env.lsSelection.getD 0 "")).2
      (getSkinCluster env (env.lsSelection.getD 1 "")).2
      (getUVSet env (env.lsSelection.getD 0 "")).2
      (getUVSet env (env.lsSelection.getD 1 "")).2 us ud h2
    simp only [mainTail, htail]
    refine ⟨?_, ?_, ?_⟩
    · rw [List.countP_append]
      exact Nat.le_add_left 1 _
    · rw [List.countP_append, preTrace_isCopy]
      rfl
    · trivial
  · have htail := srcStage_dst_bad env.lsSelection
      (getSkinCluster env (env.lsSelection.getD 0 "")).2
      (getSkinCluster env (env.lsSelection.getD 1 "")).2
      (getUVSet env (env.lsSelection.getD 0 "")).2
      (getUVSet env (env.lsSelection.getD 1 "")).2 us ud h2
    simp only [mainTail]
    refine ⟨?_, ?_, htail.2.2⟩
    · rw [List.countP_append]
      exact le_trans htail.1 (Nat.le_add_left _ _)
    · rw [List.countP_append, preTrace_isCopy, htail.2.1]

theorem uv_membership_guard_witness :
    1 ≤ (main plainEnv 4 5 "badUV" "").trace.countP isWarning ∧
      (main plainEnv 4 5 "badUV" "").trace.countP isCopy = 0 ∧
      (main plainEnv 4 5 "badUV" "").outcome = Outcome.aborted :=
  uv_membership_guard plainEnv 4 5 "badUV" "" (by decide)
    (Or.inl ⟨by decide, by decide⟩)

/-- Claim C7: the three helpers issue only host query commands, and
every command `main` issues is a host query, a message to the host's
error/warning channel, or one of the four scene mutations (unbind, bind,
weight copy, select); the embedding is a pure function of the host
oracle and its arguments, so no state of the module survives a call. -/
theorem module_effects (env : HostEnv) (n : String) (dr : Rat) (mi : Int)
    (us ud : String) :
    (∀ c ∈ (getSkinCluster env n).1, isQuery c = true) ∧
      (∀ c ∈ (getInfluence env n).1, isQuery c = true) ∧
      (∀ c ∈ (getUVSet env n).1, isQuery c = true) ∧
      (∀ c ∈ (main env dr mi us ud).trace,
        isQuery c = true ∨ isMessage c = true ∨ isSceneMutation c = true) := by
  refine ⟨getSkinCluster_queries env n, getInfluence_queries env n,
    getUVSet_queries env n, ?_⟩
  intro c hc
  simp only [main] at hc
  split at hc
  · rcases List.mem_cons.mp hc with rfl | hc
    · left; rfl
    · rcases List.mem_singleton.mp hc with rfl
      right; left; rfl
  · rcases List.mem_append.mp hc with hc | hc
    · rcases mem_preTrace env dr mi c hc with hq | rfl | rfl
      · exact Or.inl hq
      · right; right; rfl
      · right; right; rfl
    · rcases srcStage_cmds _ _ _ _ _ _ _ c hc with hw | hcp | hs
      · right; left; cases c <;> simp_all [isWarning, isMessage]
      · right; right; cases c <;> simp_all [isCopy, isSceneMutation]
      · right; right; cases c <;> simp_all [isSelect, isSceneMutation]

theorem module_effects_witness :
    isQuery Cmd.lsSelection = true ∨ isMessage Cmd.lsSelection = true ∨
      isSceneMutation Cmd.lsSelection = true :=
  (module_effects plainEnv "x" 4 5 "" "").2.2.2 Cmd.lsSelection (by decide)

/-- Claim C8: a run that issues the weight copy afterwards restores the
host selection to exactly the entry selection (the replace-select of
line 202 with the list captured at line 129); a run that aborts before
the copy issues no select at all and leaves any entry selection
unchanged. -/
theorem selection_frame (env : HostEnv) (dr : Rat) (mi : Int) (us ud : String) :
    ((main env dr mi us ud).trace.countP isCopy ≠ 0 →
      selectionAfter env.lsSelection (main env dr mi us ud).trace = env.lsSelection) ∧
    ((main env dr mi us ud).trace.countP isCopy = 0 →
      ∀ s, selectionAfter s (main env dr mi us ud).trace = s) := by
  by_cases hlen : env.lsSelection.length < 2
  · simp only [main, if_pos hlen]
    exact ⟨fun h => absurd rfl h, fun _ s => rfl⟩
  · simp only [main, if_neg hlen]
    have hpre : ∀ s, selectionAfter s (preTrace env dr mi) = s :=
      selectionAfter_no_select _ (preTrace_no_select env dr mi)
    constructor
    · intro h
      rw [List.countP_append, preTrace_isCopy, Nat.zero_add] at h
      rw [selectionAfter_append, hpre]
      by_cases hok : (mainTail env us ud).2 = Outcome.ok
      · exact ((srcStage_frame env.lsSelection
          (getSkinCluster env (env.lsSelection.getD 0 "")).2
          (getSkinCluster env (env.lsSelection.getD 1 "")).2
          (getUVSet env (env.lsSelection.getD 0 "")).2
          (getUVSet env (env.lsSelection.getD 1 "")).2 us ud
          env.lsSelection).1 hok).1
      · exact absurd ((srcStage_frame env.lsSelection
          (getSkinCluster env (env.lsSelection.getD 0 "")).2
          (getSkinCluster env (env.lsSelection.getD 1 "")).2
          (getUVSet env (env.lsSelection.getD 0 "")).2
          (getUVSet env (env.lsSelection.getD 1 "")).2 us ud
          env.lsSelection).2 hok).2 h
    · intro h s
      rw [List.countP_append, preTrace_isCopy, Nat.zero_add] at h
      rw [selectionAfter_append, hpre]
      by_cases hok : (mainTail env us ud).2 = Outcome.ok
      · exact absurd (((srcStage_frame env.lsSelection
            (getSkinCluster env (env.lsSelection.getD 0 "")).2
            (getSkinCluster env (env.lsSelection.getD 1 "")).2
            (getUVSet env (env.lsSelection.getD 0 "")).2
            (getUVSet env (env.lsSelection.getD 1 "")).2 us ud
            s).1 hok).2.symm.trans h) one_ne_zero
      · exact ((srcStage_frame env.lsSelection
          (getSkinCluster env (env.lsSelection.getD 0 "")).2
          (getSkinCluster env (env.lsSelection.getD 1 "")).2
          (getUVSet env (env.lsSelection.getD 0 "")).2
          (getUVSet env (env.lsSelection.getD 1 "")).2 us ud
          s).2 hok).1

theorem selection_frame_witness :
    selectionAfter plainEnv.lsSelection (main plainEnv 4 5 "" "").trace =
      plainEnv.lsSelection :=
  (selection_frame plainEnv 4 5 "" "").1 (by decide)

/-- Claim C9: when the run passes the selection check and the
destination object's influence list is non-empty, the unbind of the
destination is issued and precedes the (unique) bind; when the influence
list is empty, no unbind is issued at all. -/
theorem unbind_before_bind (env : HostEnv) (dr : Rat) (mi : Int) (us ud : String)
    (h : 2 ≤ env.lsSelection.length) :
    ((getInfluence env (env.lsSelection.getD 1 "")).2 ≠ [] →
      ∃ t1 t2, (main env dr mi us ud).trace =
          t1 ++ Cmd.unbind (env.lsSelection.getD 1 "") :: t2 ∧
        (∀ c ∈ t1, isBind c = false) ∧ t2.countP isBind = 1) ∧
    ((getInfluence env (env.lsSelection.getD 1 "")).2 = [] →
      (main env dr mi us ud).trace.countP isUnbind = 0) := by
  have hlt : ¬ env.lsSelection.length < 2 := by omega
  simp only [main, if_neg hlt]
  constructor
  · intro hdi
    refine ⟨Cmd.lsSelection :: ((getInfluence env (env.lsSelection.getD 0 "")).1 ++
        (getInfluence env (env.lsSelection.getD 1 "")).1),
      Cmd.bind ((env.lsSelection.getD 1 "") ::
          (getInfluence env (env.lsSelection.getD 0 "")).2) dr false mi 0 true false ::
        ((getSkinCluster env (env.lsSelection.getD 0 "")).1 ++
          (getSkinCluster env (env.lsSelection.getD 1 "")).1 ++
          (getUVSet env (env.lsSelection.getD 0 "")).1 ++
          (getUVSet env (env.lsSelection.getD 1 "")).1 ++
          (mainTail env us ud).1), ?_, ?_, ?_⟩
    · have hif : (if (getInfluence env (env.lsSelection.getD 1 "")).2 = [] then ([] : List Cmd)
          else [Cmd.unbind (env.lsSelection.getD 1 "")]) =
          [Cmd.unbind (env.lsSelection.getD 1 "")] := if_neg hdi
      simp only [preTrace, hif, List.cons_append, List.append_assoc, List.nil_append,
        List.singleton_append]
    · intro c hc
      rcases List.mem_cons.mp hc with rfl | hc
      · rfl
      · rcases List.mem_append.mp hc with hc | hc
        · exact (isQuery_classify _ (getInfluence_queries env _ c hc)).1
        · exact (isQuery_classify _ (getInfluence_queries env _ c hc)).1
    · rw [List.countP_cons]
      have hz := countP_zero_of_queries isBind (fun c hq => (isQuery_classify c hq).1)
      rw [List.countP_append, List.countP_append, List.countP_append, List.countP_append,
        hz _ (getSkinCluster_queries env _), hz _ (getSkinCluster_queries env _),
        hz _ (getUVSet_queries env _), hz _ (getUVSet_queries env _), mainTail_isBind]
      rfl
  · intro hdi
    rw [List.countP_append, preTrace_isUnbind, mainTail_isUnbind, if_pos hdi]

theorem unbind_before_bind_witness :
    2 ≤ plainEnv.lsSelection.length ∧
      (main plainEnv 4 5 "" "").trace.countP isUnbind = 0 :=
  ⟨by decide, (unbind_before_bind plainEnv 4 5 "" "" (by decide)).2 (by decide)⟩

/-- Claim C10: `getInfluence` returns the empty list for an empty name
or whenever `getSkinCluster` finds no skin cluster (falsy result);
`getSkinCluster` returns the empty list for an empty or shape-less
(unresolvable) name, but returns `None` when a shape is found with no
incoming skin-cluster connection — so its result is not always the
string its docstring documents. -/
theorem degenerate_queries (env : HostEnv) (n : String) :
    ((getInfluence env "").2 = []) ∧
      (pyFalsy (getSkinCluster env n).2 = true → (getInfluence env n).2 = []) ∧
      ((env.nodeType n = "transform" ∧ env.listRelatives n = []) →
        (getSkinCluster env n).2 = PyVal.list []) ∧
      ((env.nodeType "" = "transform" → env.listRelatives "" = []) →
        (getSkinCluster env "").2 = PyVal.list []) ∧
      ((env.nodeType n = "transform" ∧ env.listRelatives n ≠ [] ∧
          (∀ s ∈ env.listRelatives n, env.listConnections s = [])) →
        (getSkinCluster env n).2 = PyVal.none) := by
  refine ⟨rfl, ?_, ?_, ?_, ?_⟩
  · intro hf
    by_cases hn : n = ""
    · simp [getInfluence, hn]
    · simp [getInfluence, hn, hf]
  · rintro ⟨h1, h2⟩
    simp [getSkinCluster, resolveShapes, h1, h2, pyFalsy]
  · intro himp
    by_cases ht : env.nodeType "" = "transform"
    · simp [getSkinCluster, resolveShapes, ht, himp ht, pyFalsy]
    · simp [getSkinCluster, resolveShapes, ht, pyFalsy]
  · rintro ⟨h1, h2, h3⟩
    have hc := connLoop_all_empty env (env.listRelatives n) h3
    rcases hrel : env.listRelatives n with _ | ⟨x, xs⟩
    · exact absurd hrel h2
    · rw [hrel] at hc
      simp [getSkinCluster, resolveShapes, h1, hrel, pyFalsy, pyIter, hc]

theorem degenerate_queries_witness :
    (getInfluence bareShapeEnv "").2 = [] ∧
      (getSkinCluster bareShapeEnv "grp").2 = PyVal.none :=
  ⟨(degenerate_queries bareShapeEnv "x").1,
    (degenerate_queries bareShapeEnv "grp").2.2.2.2 (by decide)⟩

end BindAndCopyWeight
